import Mathlib

/-!
# Verification of the fuso server connection classifier (src/src/server.rs)

A shallow embedding of the staged connection classifier and action router of
the fuso tunneling proxy server.  The two stage chains (`chain_handler`,
`chain_strategy`) are translated directly from `src/src/server.rs`.  The
external collaborators that the source consumes but does not define
(the peekable stream's `begin`/`back`/`release` discipline, the chain
dispatcher of `fuso_core::dispatch`, the Action codec, the SOCKS5
negotiation, the routing context and the `Xor` cipher) are modelled from the
specification at their interfaces.
-/

deriving instance DecidableEq for Except

namespace FusoServer

/-! ## Data model -/

/-- A socket address: four IP octets and a port (`std::net::SocketAddr` as used
by `server.rs`, e.g. `([0, 0, 0, 0], 0).into()`). -/
structure SocketAddress where
  ip : List Nat
  port : Nat
deriving DecidableEq

/-- `fuso_core::packet::Addr` — the core's address type: `Socket` or `Domain`. -/
inductive Addr
  | Socket (a : SocketAddress)
  | Domain (host : String) (port : Nat)
deriving DecidableEq

/-- `fuso_socks::Addr` — the SOCKS library's address type, structurally the
same two variants; `server.rs` lines 185–192 translate it into `Addr`. -/
inductive SocksAddr
  | Socket (a : SocketAddress)
  | Domain (host : String) (port : Nat)
deriving DecidableEq

/-- The address translation performed in `server.rs` lines 185–192
(and again lines 162–169 in the UDP resolver). -/
def translateAddr : SocksAddr → Addr
  | SocksAddr.Socket a => Addr.Socket a
  | SocksAddr.Domain d p => Addr.Domain d p

/-- `fuso_core::packet::Action` — the tagged action message. -/
inductive Action
  | TcpBind (name : String) (addr : Addr)
  | UdpBind (conv : Nat)
  | Connect (conv : Nat) (addr : Addr)
  | Forward (conv : Nat) (addr : Addr)
  | Err (msg : String)
deriving DecidableEq

/-- `fuso_core::dispatch::State` — the tri-state stage outcome. -/
inductive State (α : Type)
  | Next
  | Accept (v : α)
  | Release
deriving DecidableEq

/-! ## The peekable stream

Modelled from the spec: the transport stream contract (external, not under
src/) — a duplex byte stream with speculative-read semantics, implemented
"via an explicit internal buffer plus a cursor, exposed through `begin`,
`back`, `release`": `begin` marks a checkpoint, `back` rewinds the bytes
read since the last checkpoint, `release` commits (discards the
checkpoint).  `begin`/`back` return a `Result` whose success is modelled by
a `Bool` argument: a failing call leaves the stream unchanged. -/

/-- Stream state: unread input bytes, bytes read since the last checkpoint
(replayed by `back`), and all bytes written so far. -/
structure PStream where
  input : List Nat
  mark : List Nat
  output : List Nat
deriving DecidableEq

/-- `begin()` — set a checkpoint.  `ok` is the `Result` of the call. -/
def sbegin (ok : Bool) (s : PStream) : PStream :=
  if ok then { s with mark := [] } else s

/-- `back()` — rewind to the last checkpoint, replaying the marked bytes. -/
def sback (ok : Bool) (s : PStream) : PStream :=
  if ok then ⟨s.mark ++ s.input, [], s.output⟩ else s

/-- `release()` — commit: drop the checkpoint, keep the bytes consumed. -/
def srelease (ok : Bool) (s : PStream) : PStream :=
  if ok then { s with mark := [] } else s

/-- Read up to `n` bytes; the bytes read are appended to the mark buffer. -/
def sread (n : Nat) (s : PStream) : List Nat × PStream :=
  (s.input.take n, ⟨s.input.drop n, s.mark ++ s.input.take n, s.output⟩)

/-- Write bytes to the peer. -/
def swrite (bs : List Nat) (s : PStream) : PStream :=
  { s with output := s.output ++ bs }

/-! ## External collaborators (oracles)

The Action codec, the routing context (`spawn`/`route`/`udp_forward`) and
the SOCKS5 negotiation are external to `server.rs`; their behaviour on a
given connection is a parameter of the embedding. -/

/-- Result of `tcp.recv().await?.try_into()?` (server.rs line 112): either a
decoded `Action` together with the number of input bytes it consumed, or a
decode failure (the bytes are not a valid Action message) that still
consumed `n` bytes before failing. -/
inductive DecodeRes
  | ok (a : Action) (n : Nat)
  | bad (n : Nat) (msg : String)
deriving DecidableEq

/-- Result of the SOCKS5 `authenticate(None)` call (server.rs line 154):
a UDP associate, a TCP connect to `addr` consuming `n` negotiation bytes,
or an error whose `invalid` flag models
`e.kind() == std::io::ErrorKind::InvalidData` (line 194). -/
inductive AuthRes
  | udp
  | tcp (addr : SocksAddr) (n : Nat)
  | err (invalid : Bool) (msg : String)
deriving DecidableEq

/-- The external collaborators of one connection: the Action decoder, the
routing context's `spawn`/`route`/`udp_forward`, the encoder used by
`tcp.send` (returning the bytes it writes), and the SOCKS5 negotiation
(a function of the unread input). -/
structure Ext where
  decode : List Nat → DecodeRes
  spawn : Addr → String → Except String Nat
  send : Action → Except String (List Nat)
  route : Nat → Action → Except String Unit
  auth : List Nat → AuthRes
  udpFwd : Except String Unit

/-- A record of the routing-context calls a stage performed. -/
inductive ExtCall
  | spawnCall (addr : Addr) (name : String)
  | routeCall (conv : Nat) (a : Action)
  | sendCall (a : Action)
deriving DecidableEq

/-- Errors a stage can raise: a protocol mismatch ("this peer sent something
this stage doesn't understand") or a genuine failure of a committed
operation — the two propagation classes of the spec's error taxonomy. -/
inductive CErr
  | mismatch (msg : String)
  | failure (msg : String)
deriving DecidableEq

/-- What one stage run produces: its outcome (`Err` or a `State`), the
resulting stream, and the trace of routing-context calls it made. -/
abbrev StageRes (α : Type) := Except CErr (State α) × PStream × List ExtCall

/-! ## Literal bytes (server.rs lines 101 and 104) -/

/-- ASCII bytes of a string literal. -/
def ascii (t : String) : List Nat := t.data.map Char.toNat

/-- The WebSocket probe's required leading bytes, `"GET / HTTP/1.1"`. -/
def wsReqHead : List Nat := ascii "GET / HTTP/1.1"

/-- The WebSocket probe's required trailing bytes, `"\r\n\r\n"`. -/
def wsReqTail : List Nat := ascii "\r\n\r\n"

/-- The literal 101 Switching Protocols response written on a probe match. -/
def wsResponse : List Nat :=
  ascii "HTTP/1.1 101 Switching Protocols\r\nUpgrade: websocket\r\nConnection: Upgrade\r\n\r\n"

/-- The probe test of server.rs line 101:
`buf.starts_with(b"GET / HTTP/1.1") && buf.ends_with(b"\r\n\r\n")`. -/
def wsMatch (buf : List Nat) : Bool :=
  wsReqHead.isPrefixOf buf && wsReqTail.isSuffixOf buf

/-! ## The chain stages (server.rs lines 93–148 and 152–206) -/

/-- Classifier stage 1 (server.rs lines 93–110), the WebSocket probe:
`begin`, read up to 1024 bytes; on a probe match write the literal 101
response (without rolling back), otherwise `back`; return `Next` either
way.  `ck₁`/`ck₂` are the discarded results of `begin`/`back`. -/
def hstage1 (ck₁ ck₂ : Bool) (s : PStream) : StageRes Unit :=
  let s := sbegin ck₁ s
  let r := sread 1024 s
  if wsMatch r.1 then
    (Except.ok State.Next, swrite wsResponse r.2, [])
  else
    (Except.ok State.Next, sback ck₂ r.2, [])

/-- Classifier stage 2 (server.rs lines 111–148), the Action dispatch:
`tcp.recv().await?.try_into()?` (decode failure propagates as an error),
then `begin`, then dispatch on the Action:
`TcpBind` calls `spawn`, reporting a spawn failure in-band via
`tcp.send(Action::Err(..)).await?` and still accepting; `UdpBind` and
`Connect` call `route`, propagating its error; any other variant rolls
back and falls through.  `ck₁`/`ck₂` are the discarded results of
`begin`/`back`. -/
def hstage2 (ext : Ext) (ck₁ ck₂ : Bool) (s : PStream) : StageRes Unit :=
  match ext.decode s.input with
  | DecodeRes.bad n msg => (Except.error (CErr.mismatch msg), (sread n s).2, [])
  | DecodeRes.ok a n =>
    let s := (sread n s).2
    let s := sbegin ck₁ s
    match a with
    | Action.TcpBind name addr =>
      match ext.spawn addr name with
      | Except.ok _conv =>
        (Except.ok (State.Accept ()), s, [ExtCall.spawnCall addr name])
      | Except.error e =>
        match ext.send (Action.Err e) with
        | Except.ok bs =>
          (Except.ok (State.Accept ()), swrite bs s,
            [ExtCall.spawnCall addr name, ExtCall.sendCall (Action.Err e)])
        | Except.error se =>
          (Except.error (CErr.failure se), s,
            [ExtCall.spawnCall addr name, ExtCall.sendCall (Action.Err e)])
    | Action.UdpBind conv =>
      match ext.route conv (Action.UdpBind conv) with
      | Except.ok _ =>
        (Except.ok (State.Accept ()), s, [ExtCall.routeCall conv (Action.UdpBind conv)])
      | Except.error e =>
        (Except.error (CErr.failure e), s, [ExtCall.routeCall conv (Action.UdpBind conv)])
    | Action.Connect conv addr =>
      match ext.route conv (Action.Connect conv addr) with
      | Except.ok _ =>
        (Except.ok (State.Accept ()), s,
          [ExtCall.routeCall conv (Action.Connect conv addr)])
      | Except.error e =>
        (Except.error (CErr.failure e), s,
          [ExtCall.routeCall conv (Action.Connect conv addr)])
    | _ => (Except.ok State.Next, sback ck₂ s, [])

/-- Strategy stage 1 (server.rs lines 152–200), the SOCKS5 attempt:
`begin`, then `authenticate(None)`:
a UDP associate runs `udp_forward` (propagating its error) and `Release`s;
a TCP connect consumes the negotiation bytes, `release`s the checkpoint and
accepts `Forward(0, translated addr)`; an `InvalidData` error rolls back
and falls through; any other error propagates.  `ck₁`/`ck₂` are the
discarded results of `begin` and of `back`/`release`. -/
def sstage1 (ext : Ext) (ck₁ ck₂ : Bool) (s : PStream) : StageRes Action :=
  let s := sbegin ck₁ s
  match ext.auth s.input with
  | AuthRes.udp =>
    match ext.udpFwd with
    | Except.ok _ => (Except.ok State.Release, s, [])
    | Except.error e => (Except.error (CErr.failure e), s, [])
  | AuthRes.tcp addr n =>
    (Except.ok (State.Accept (Action.Forward 0 (translateAddr addr))),
      srelease ck₂ (sread n s).2, [])
  | AuthRes.err invalid msg =>
    if invalid then (Except.ok State.Next, sback ck₂ s, [])
    else (Except.error (CErr.failure msg), s, [])

/-- Strategy stage 2 (server.rs lines 201–206), the default fallback:
unconditionally accept `Forward(0, Socket(0.0.0.0:0))`; it touches nothing
and cannot fail. -/
def sstage2 (s : PStream) : StageRes Action :=
  (Except.ok (State.Accept (Action.Forward 0 (Addr.Socket ⟨[0, 0, 0, 0], 0⟩))), s, [])

/-! ## The chain dispatcher

Modelled from the spec: the dispatcher of `fuso_core` (not under src/).
Stages run strictly in declared order; `Next` continues to the next stage;
`Accept`/`Release` terminate the chain; a protocol-mismatch error ("this
peer sent something this stage doesn't understand") is recovered locally by
rollback and continuing the chain; a genuine failure is propagated as a
fatal chain error.  The Strategy chain runs only when the Classifier chain
falls through without terminating. -/

/-- A chain stage, with its external collaborators already applied. -/
abbrev Stg (α : Type) := PStream → StageRes α

/-- Result of running one chain to completion. -/
inductive ChainRes (α : Type)
  | accept (v : α) (s : PStream)
  | release (s : PStream)
  | offEnd (s : PStream)
  | fail (msg : String) (s : PStream)
deriving DecidableEq

/-- Modelled from the spec: run a list of stages in order (the dispatcher of
`fuso_core::dispatch`, not under src/).  `Next` continues; mismatch errors
are recovered locally (rollback + continue chain); failures are fatal. -/
def runChain {α : Type} : List (Stg α) → PStream → ChainRes α
  | [], s => ChainRes.offEnd s
  | st :: rest, s =>
    match st s with
    | (Except.error (CErr.mismatch _), s1, _) => runChain rest (sback true s1)
    | (Except.error (CErr.failure e), s1, _) => ChainRes.fail e s1
    | (Except.ok State.Next, s1, _) => runChain rest s1
    | (Except.ok (State.Accept v), s1, _) => ChainRes.accept v s1
    | (Except.ok State.Release, s1, _) => ChainRes.release s1

/-- The classifier chain of `chain_handler` (server.rs lines 91–149), with
all checkpoint calls succeeding. -/
def chainHandler (ext : Ext) : List (Stg Unit) :=
  [hstage1 true true, hstage2 ext true true]

/-- The strategy chain of `chain_strategy` (server.rs lines 150–207), with
all checkpoint calls succeeding. -/
def chainStrategy (ext : Ext) : List (Stg Action) :=
  [sstage1 ext true true, sstage2]

/-- Terminal outcome of the full pipeline: classifier accepted (connection
handled by bind/route), strategy accepted an `Action`, a stage released the
stream, a fatal chain error, or fell off the end of both chains. -/
inductive FullRes
  | handled (s : PStream)
  | act (a : Action) (s : PStream)
  | released (s : PStream)
  | err (msg : String) (s : PStream)
  | offEnd (s : PStream)
deriving DecidableEq

/-- Lift a strategy-chain result to a pipeline result. -/
def liftStrategy : ChainRes Action → FullRes
  | ChainRes.accept a s => FullRes.act a s
  | ChainRes.release s => FullRes.released s
  | ChainRes.offEnd s => FullRes.offEnd s
  | ChainRes.fail e s => FullRes.err e s

/-- Modelled from the spec: the full pipeline (composition done by
`fuso_core`, not under src/) — the Classifier chain first; the Strategy
chain runs only when the Classifier falls through without terminating. -/
def runFull (ext : Ext) (s : PStream) : FullRes :=
  match runChain (chainHandler ext) s with
  | ChainRes.accept _ s1 => FullRes.handled s1
  | ChainRes.release s1 => FullRes.released s1
  | ChainRes.fail e s1 => FullRes.err e s1
  | ChainRes.offEnd s1 => liftStrategy (runChain (chainStrategy ext) s1)

/-! ## The Xor cipher -/

/-- Modelled from the spec: the `Xor` stream cipher of `fuso_core::cipher`
(not under src/) — a symmetric transform, configured with a single-byte key
(0–255), that XORs every byte passing through it (server.rs lines 212–217
wrap the "to" half with `cipher(Xor::new(xor_num))`). -/
def xorCipher (key : Nat) (s : List Nat) : List Nat :=
  s.map fun b => key ^^^ b

/-! ## Concrete connection environments used as witnesses -/

/-- A connection whose bytes decode to no Action and fail SOCKS5 negotiation
with `InvalidData` — nothing the chains recognize. -/
def extBase : Ext where
  decode := fun _ => DecodeRes.bad 0 "no action"
  spawn := fun _ _ => Except.ok 1
  send := fun _ => Except.ok []
  route := fun _ _ => Except.ok ()
  auth := fun _ => AuthRes.err true "no socks"
  udpFwd := Except.ok ()

/-- A fresh connection carrying exactly the 18-byte WebSocket probe. -/
def sW4a : PStream := ⟨ascii "GET / HTTP/1.1\r\n\r\n", [], []⟩

/-- A fresh connection carrying three bytes that match no protocol. -/
def sW4b : PStream := ⟨[1, 2, 3], [], []⟩

/-- The Action variants classifier stage 2 dispatches on; the remaining
variants (`Forward`, `Err`) hit its `_` fallthrough arm (server.rs 143). -/
def dispatched : Action → Bool
  | Action.TcpBind _ _ => true
  | Action.UdpBind _ => true
  | Action.Connect _ _ => true
  | _ => false

/-- A connection whose first byte decodes to the undispatched Action
`Err "e"`, so classifier stage 2 falls through. -/
def extC2 : Ext :=
  { extBase with decode := fun _ => DecodeRes.ok (Action.Err "e") 1 }

/-- A three-byte stream for the C2 counterexample. -/
def sC2 : PStream := ⟨[9, 1, 2], [], []⟩

/-- Number of `spawn` calls in a trace. -/
def countSpawn (tr : List ExtCall) : Nat :=
  tr.countP fun c => match c with | ExtCall.spawnCall _ _ => true | _ => false

/-- Number of `route` calls in a trace. -/
def countRoute (tr : List ExtCall) : Nat :=
  tr.countP fun c => match c with | ExtCall.routeCall _ _ => true | _ => false

/-- The bind destination used by the C5/C9 witnesses. -/
def addrC5 : Addr := Addr.Socket ⟨[127, 0, 0, 1], 8080⟩

/-- A connection decoding to `TcpBind("myapp", 127.0.0.1:8080)` whose
`spawn` succeeds. -/
def extC5a : Ext :=
  { extBase with decode := fun _ => DecodeRes.ok (Action.TcpBind "myapp" addrC5) 2 }

/-- The same connection but `spawn` fails and the in-band report succeeds. -/
def extC5b : Ext :=
  { extC5a with
    spawn := fun _ _ => Except.error "name taken",
    send := fun _ => Except.ok [7] }

/-- The same connection but both `spawn` and the in-band `send` fail. -/
def extC9 : Ext :=
  { extC5b with send := fun _ => Except.error "broken pipe" }

/-- A five-byte stream for the TcpBind witnesses. -/
def sC5 : PStream := ⟨[3, 4, 5, 6, 7], [], []⟩

/-- The connect destination used by the C6 witnesses. -/
def addrC6 : Addr := Addr.Domain "example.com" 443

/-- A connection decoding to `UdpBind(42)` whose `route` succeeds. -/
def extC6a : Ext :=
  { extBase with decode := fun _ => DecodeRes.ok (Action.UdpBind 42) 1 }

/-- The same connection but `route` fails. -/
def extC6b : Ext :=
  { extC6a with route := fun _ _ => Except.error "conversation gone" }

/-- A connection decoding to `Connect(42, example.com:443)` whose `route`
succeeds. -/
def extC6c : Ext :=
  { extBase with decode := fun _ => DecodeRes.ok (Action.Connect 42 addrC6) 1 }

/-- The same connection but `route` fails. -/
def extC6d : Ext :=
  { extC6c with route := fun _ _ => Except.error "conversation gone" }

/-- A two-byte stream for the C6 witnesses. -/
def sC6 : PStream := ⟨[8, 9], [], []⟩

/-- A connection decoding to `Connect(7, example.com:443)` whose `route`
fails — the C3 counterexample. -/
def extC3 : Ext :=
  { extBase with
    decode := fun _ => DecodeRes.ok (Action.Connect 7 addrC6) 1,
    route := fun _ _ => Except.error "no such conversation" }

/-- A two-byte stream for the C3 counterexample. -/
def sC3 : PStream := ⟨[5, 6], [], []⟩

/-- Whether a pipeline result is an `Accept`-style or `Release` terminal
outcome (as opposed to an error or falling off the end). -/
def isAcceptOrRelease : FullRes → Bool
  | FullRes.handled _ => true
  | FullRes.act _ _ => true
  | FullRes.released _ => true
  | _ => false

/-- Whether a pipeline result fell off the end of both chains. -/
def isOffEnd : FullRes → Bool
  | FullRes.offEnd _ => true
  | _ => false

/-- Whether a chain result fell off the end of its stage list. -/
def isOffEndC {α : Type} : ChainRes α → Bool
  | ChainRes.offEnd _ => true
  | _ => false

/-- The SOCKS destination used by the C7 witness. -/
def socksC7 : SocksAddr := SocksAddr.Socket ⟨[93, 184, 216, 34], 80⟩

/-- A connection whose SOCKS5 negotiation yields a TCP connect to
`93.184.216.34:80` after three negotiation bytes. -/
def extC7a : Ext :=
  { extBase with auth := fun _ => AuthRes.tcp socksC7 3 }

/-- A connection whose SOCKS5 negotiation fails with a non-`InvalidData`
error. -/
def extC7c : Ext :=
  { extBase with auth := fun _ => AuthRes.err false "io error" }

/-! ## Theorems -/

/-- Claim C8 — For every single-byte key `k` in 0–255 and every byte sequence
`s`, including the empty sequence, applying the Xor cipher transform with
key `k` twice to `s` returns `s` exactly (the transform is self-inverse). -/
theorem c8_xor_cipher_roundtrip (key : Nat) (s : List Nat)
    (hk : key < 256) (hs : ∀ b ∈ s, b < 256) :
    xorCipher key (xorCipher key s) = s := by
  unfold xorCipher
  rw [List.map_map]
  have h : ∀ b : Nat, key ^^^ (key ^^^ b) = b := by
    intro b
    rw [← Nat.xor_assoc, Nat.xor_self, Nat.zero_xor]
  simp [Function.comp_def, h]

/-- Witness for C8: key 27 (the server's default `--xor` value), on the
empty sequence and on a three-byte sequence. -/
theorem c8_xor_cipher_roundtrip_witness :
    (27 < 256 ∧ xorCipher 27 (xorCipher 27 []) = []) ∧
    (27 < 256 ∧ xorCipher 27 (xorCipher 27 [0, 255, 7]) = [0, 255, 7]) :=
  ⟨⟨by decide, c8_xor_cipher_roundtrip 27 [] (by decide) (by decide)⟩,
   ⟨by decide, c8_xor_cipher_roundtrip 27 [0, 255, 7] (by decide) (by decide)⟩⟩

/-- Claim C4 — For every input whose initial read (up to 1024 bytes) starts
with `"GET / HTTP/1.1"` and ends with `"\r\n\r\n"`, Classifier stage 1
writes back exactly the literal 101 Switching Protocols response and
returns `Next`, with the probe bytes consumed, so stage 2 (which runs on
the resulting stream) never re-reads them as an Action; for every input
not matching both the tests, the stage rolls back and returns `Next`
without writing anything. -/
theorem c4_websocket_probe (s : PStream) :
    (wsMatch (s.input.take 1024) = true →
      hstage1 true true s =
        (Except.ok State.Next,
          ⟨s.input.drop 1024, s.input.take 1024, s.output ++ wsResponse⟩, [])) ∧
    (wsMatch (s.input.take 1024) = false →
      hstage1 true true s = (Except.ok State.Next, ⟨s.input, [], s.output⟩, [])) ∧
    (∀ ext : Ext, wsMatch (s.input.take 1024) = true →
      runChain (chainHandler ext) s =
        runChain [hstage2 ext true true]
          ⟨s.input.drop 1024, s.input.take 1024, s.output ++ wsResponse⟩) := by
  refine ⟨fun h => ?_, fun h => ?_, fun ext h => ?_⟩
  · simp [hstage1, sbegin, sread, swrite, h]
  · simp [hstage1, sbegin, sread, sback, h, List.take_append_drop]
  · simp [runChain, chainHandler, hstage1, sbegin, sread, swrite, h]

/-- Witness for C4: the probe input `"GET / HTTP/1.1\r\n\r\n"` and the
non-probe input `[1, 2, 3]`. -/
theorem c4_websocket_probe_witness :
    (wsMatch (sW4a.input.take 1024) = true ∧
      hstage1 true true sW4a =
        (Except.ok State.Next,
          ⟨sW4a.input.drop 1024, sW4a.input.take 1024, sW4a.output ++ wsResponse⟩, [])) ∧
    (wsMatch (sW4b.input.take 1024) = false ∧
      hstage1 true true sW4b =
        (Except.ok State.Next, ⟨sW4b.input, [], sW4b.output⟩, [])) ∧
    runChain (chainHandler extBase) sW4a =
      runChain [hstage2 extBase true true]
        ⟨sW4a.input.drop 1024, sW4a.input.take 1024, sW4a.output ++ wsResponse⟩ :=
  ⟨⟨by decide, (c4_websocket_probe sW4a).1 (by decide)⟩,
   ⟨by decide, (c4_websocket_probe sW4b).2.1 (by decide)⟩,
   (c4_websocket_probe sW4a).2.2 extBase (by decide)⟩

/-- Claim C2, counterexample — The claim "a stage that returns `Next` leaves
the stream byte-identical to what it observed at entry, and in particular
stage 2's fallthrough restores the stream to before the Action was
decoded" is false: on input `[9, 1, 2]` whose first byte decodes to the
undispatched Action `Err "e"`, stage 2 returns `Next` but the next stage
observes input `[1, 2]` — the decoded Action's byte is gone, because
server.rs line 112 decodes before line 113 checkpoints. -/
theorem c2_rollback_counterexample :
    (hstage2 extC2 true true sC2).1 = Except.ok State.Next ∧
    (hstage2 extC2 true true sC2).2.1.input = [1, 2] ∧
    sC2.input = [9, 1, 2] := ⟨rfl, rfl, rfl⟩

/-- Claim C2, amended — Stages that return `Next` restore only the bytes read
since their most recent checkpoint.  Classifier stage 2 takes its
checkpoint only after decoding the Action, so when it falls through on an
unrecognized variant it returns `Next` with the stream positioned just
after the decoded Action (the Action's bytes stay consumed, nothing is
written); classifier stage 1 on a non-matching probe does restore the
stream it observed at entry. -/
theorem c2_rollback_amended (ext : Ext) (s : PStream) (a : Action) (n : Nat)
    (hdec : ext.decode s.input = DecodeRes.ok a n) (hnd : dispatched a = false) :
    (hstage2 ext true true s).1 = Except.ok State.Next ∧
    (hstage2 ext true true s).2.1.input = s.input.drop n ∧
    (hstage2 ext true true s).2.1.output = s.output ∧
    (wsMatch (s.input.take 1024) = false →
      (hstage1 true true s).2.1.input = s.input ∧
      (hstage1 true true s).2.1.output = s.output) := by
  have h1 : wsMatch (s.input.take 1024) = false →
      (hstage1 true true s).2.1.input = s.input ∧
      (hstage1 true true s).2.1.output = s.output := by
    intro h
    simp [hstage1, sbegin, sread, sback, h, List.take_append_drop]
  cases a <;> simp_all [hstage2, dispatched, sbegin, sread, sback]

/-- Witness for the amended C2, at the counterexample's input. -/
theorem c2_rollback_amended_witness :
    extC2.decode sC2.input = DecodeRes.ok (Action.Err "e") 1 ∧
    dispatched (Action.Err "e") = false ∧
    (hstage2 extC2 true true sC2).1 = Except.ok State.Next ∧
    (hstage2 extC2 true true sC2).2.1.input = sC2.input.drop 1 ∧
    (hstage2 extC2 true true sC2).2.1.output = sC2.output :=
  ⟨by decide, by decide,
    (c2_rollback_amended extC2 sC2 (Action.Err "e") 1 (by decide) (by decide)).1,
    (c2_rollback_amended extC2 sC2 (Action.Err "e") 1 (by decide) (by decide)).2.1,
    (c2_rollback_amended extC2 sC2 (Action.Err "e") 1 (by decide) (by decide)).2.2.1⟩

/-- Claim C5 — When the decoded Action is `TcpBind(name, addr)`, the stage
calls `spawn` exactly once and never `route`; if `spawn` succeeds the
stage returns `Accept(())`; if `spawn` fails with error `e`, the stage
sends `Action::Err(e)` back to the peer over the same stream (and, the
report delivered, still returns `Accept(())`), so a binding failure does
not become a fatal connection error. -/
theorem c5_tcpbind (ext : Ext) (s : PStream) (name : String) (addr : Addr) (n : Nat)
    (hdec : ext.decode s.input = DecodeRes.ok (Action.TcpBind name addr) n) :
    (countSpawn (hstage2 ext true true s).2.2 = 1 ∧
     countRoute (hstage2 ext true true s).2.2 = 0) ∧
    (∀ conv, ext.spawn addr name = Except.ok conv →
      (hstage2 ext true true s).1 = Except.ok (State.Accept ())) ∧
    (∀ e bs, ext.spawn addr name = Except.error e → ext.send (Action.Err e) = Except.ok bs →
      (hstage2 ext true true s).1 = Except.ok (State.Accept ()) ∧
      ExtCall.sendCall (Action.Err e) ∈ (hstage2 ext true true s).2.2 ∧
      (hstage2 ext true true s).2.1.output = s.output ++ bs) := by
  refine ⟨?_, fun conv hsp => ?_, fun e bs hsp hsend => ?_⟩
  · rcases hsp : ext.spawn addr name with e | conv
    · rcases hsend : ext.send (Action.Err e) with se | bs <;>
        simp [hstage2, hdec, hsp, hsend, countSpawn, countRoute]
    · simp [hstage2, hdec, hsp, countSpawn, countRoute]
  · simp [hstage2, hdec, hsp]
  · simp [hstage2, hdec, hsp, hsend, sbegin, sread, swrite]

/-- Witness for C5: `TcpBind("myapp", 127.0.0.1:8080)` with `spawn`
succeeding, then with `spawn` failing as "name taken" while the in-band
report is delivered. -/
theorem c5_tcpbind_witness :
    (countSpawn (hstage2 extC5a true true sC5).2.2 = 1 ∧
     countRoute (hstage2 extC5a true true sC5).2.2 = 0) ∧
    (hstage2 extC5a true true sC5).1 = Except.ok (State.Accept ()) ∧
    (hstage2 extC5b true true sC5).1 = Except.ok (State.Accept ()) ∧
    ExtCall.sendCall (Action.Err "name taken") ∈ (hstage2 extC5b true true sC5).2.2 :=
  ⟨(c5_tcpbind extC5a sC5 "myapp" addrC5 2 (by decide)).1,
   (c5_tcpbind extC5a sC5 "myapp" addrC5 2 (by decide)).2.1 1 (by decide),
   ((c5_tcpbind extC5b sC5 "myapp" addrC5 2 (by decide)).2.2 "name taken" [7]
     (by decide) (by decide)).1,
   ((c5_tcpbind extC5b sC5 "myapp" addrC5 2 (by decide)).2.2 "name taken" [7]
     (by decide) (by decide)).2.1⟩

/-- Claim C9 — In the TcpBind failure path, returning `Accept(())` is
conditional on the in-band error report being delivered: if sending the
`Action::Err` message to the peer itself fails, the stage returns that
send error as a fatal chain error instead of `Accept(())` (so, for an
input reaching stage 2 intact, the whole connection run ends with that
error). -/
theorem c9_send_failure_fatal (ext : Ext) (s : PStream) (name : String) (addr : Addr)
    (n : Nat) (e se : String)
    (hdec : ext.decode s.input = DecodeRes.ok (Action.TcpBind name addr) n)
    (hsp : ext.spawn addr name = Except.error e)
    (hsend : ext.send (Action.Err e) = Except.error se) :
    (hstage2 ext true true s).1 = Except.error (CErr.failure se) ∧
    (wsMatch (s.input.take 1024) = false →
      runFull ext s = FullRes.err se ⟨s.input.drop n, [], s.output⟩) := by
  constructor
  · simp [hstage2, hdec, hsp, hsend]
  · intro hws
    simp [runFull, chainHandler, runChain, hstage1, hstage2, sbegin, sread, sback,
      swrite, hws, List.take_append_drop, hdec, hsp, hsend]

/-- Witness for C9: the C5 connection with the peer's receive side broken. -/
theorem c9_send_failure_fatal_witness :
    extC9.decode sC5.input = DecodeRes.ok (Action.TcpBind "myapp" addrC5) 2 ∧
    extC9.spawn addrC5 "myapp" = Except.error "name taken" ∧
    extC9.send (Action.Err "name taken") = Except.error "broken pipe" ∧
    (hstage2 extC9 true true sC5).1 = Except.error (CErr.failure "broken pipe") ∧
    runFull extC9 sC5 = FullRes.err "broken pipe" ⟨sC5.input.drop 2, [], sC5.output⟩ :=
  ⟨by decide, by decide, by decide,
   (c9_send_failure_fatal extC9 sC5 "myapp" addrC5 2 "name taken" "broken pipe"
     (by decide) (by decide) (by decide)).1,
   (c9_send_failure_fatal extC9 sC5 "myapp" addrC5 2 "name taken" "broken pipe"
     (by decide) (by decide) (by decide)).2 (by decide)⟩

/-- Claim C6 — When the decoded Action is `UdpBind(conv)` or
`Connect(conv, addr)`, the stage calls `route(conv, action, stream)`
exactly once (its trace is that single call); if `route` succeeds the
stage returns `Accept(())`, and if `route` fails the error is propagated
as a fatal chain error — for an input reaching stage 2 intact, the whole
connection run ends with that error, not `Accept`. -/
theorem c6_route (ext : Ext) (s : PStream) (conv : Nat) (n : Nat) :
    (ext.decode s.input = DecodeRes.ok (Action.UdpBind conv) n →
      (hstage2 ext true true s).2.2 = [ExtCall.routeCall conv (Action.UdpBind conv)] ∧
      (ext.route conv (Action.UdpBind conv) = Except.ok () →
        (hstage2 ext true true s).1 = Except.ok (State.Accept ())) ∧
      (∀ e, ext.route conv (Action.UdpBind conv) = Except.error e →
        (hstage2 ext true true s).1 = Except.error (CErr.failure e) ∧
        (wsMatch (s.input.take 1024) = false →
          runFull ext s = FullRes.err e ⟨s.input.drop n, [], s.output⟩))) ∧
    (∀ addr, ext.decode s.input = DecodeRes.ok (Action.Connect conv addr) n →
      (hstage2 ext true true s).2.2 = [ExtCall.routeCall conv (Action.Connect conv addr)] ∧
      (ext.route conv (Action.Connect conv addr) = Except.ok () →
        (hstage2 ext true true s).1 = Except.ok (State.Accept ())) ∧
      (∀ e, ext.route conv (Action.Connect conv addr) = Except.error e →
        (hstage2 ext true true s).1 = Except.error (CErr.failure e) ∧
        (wsMatch (s.input.take 1024) = false →
          runFull ext s = FullRes.err e ⟨s.input.drop n, [], s.output⟩))) := by
  constructor
  · intro hdec
    refine ⟨?_, fun hr => ?_, fun e hr => ⟨?_, fun hws => ?_⟩⟩
    · rcases hr : ext.route conv (Action.UdpBind conv) with e | u <;>
        simp [hstage2, hdec, hr]
    · simp [hstage2, hdec, hr]
    · simp [hstage2, hdec, hr]
    · simp [runFull, chainHandler, runChain, hstage1, hstage2, sbegin, sread, sback,
        swrite, hws, List.take_append_drop, hdec, hr]
  · intro addr hdec
    refine ⟨?_, fun hr => ?_, fun e hr => ⟨?_, fun hws => ?_⟩⟩
    · rcases hr : ext.route conv (Action.Connect conv addr) with e | u <;>
        simp [hstage2, hdec, hr]
    · simp [hstage2, hdec, hr]
    · simp [hstage2, hdec, hr]
    · simp [runFull, chainHandler, runChain, hstage1, hstage2, sbegin, sread, sback,
        swrite, hws, List.take_append_drop, hdec, hr]

/-- Witness for C6: `UdpBind(42)` and `Connect(42, example.com:443)`, each
with `route` succeeding and with `route` failing. -/
theorem c6_route_witness :
    (hstage2 extC6a true true sC6).2.2 = [ExtCall.routeCall 42 (Action.UdpBind 42)] ∧
    (hstage2 extC6a true true sC6).1 = Except.ok (State.Accept ()) ∧
    runFull extC6b sC6 = FullRes.err "conversation gone" ⟨sC6.input.drop 1, [], sC6.output⟩ ∧
    (hstage2 extC6c true true sC6).1 = Except.ok (State.Accept ()) ∧
    (hstage2 extC6d true true sC6).1 = Except.error (CErr.failure "conversation gone") :=
  ⟨((c6_route extC6a sC6 42 1).1 (by decide)).1,
   ((c6_route extC6a sC6 42 1).1 (by decide)).2.1 (by decide),
   (((c6_route extC6b sC6 42 1).1 (by decide)).2.2 "conversation gone" (by decide)).2 (by decide),
   ((c6_route extC6c sC6 42 1).2 addrC6 (by decide)).2.1 (by decide),
   (((c6_route extC6d sC6 42 1).2 addrC6 (by decide)).2.2 "conversation gone" (by decide)).1⟩

/-- Claim C7 — Strategy stage 1's outcome is determined by the SOCKS5
negotiation result: a TCP-connect result commits the checkpoint (the
negotiation bytes stay consumed) and returns
`Accept(Forward(0, addr))` with the SOCKS address translated to the
core's `Addr` type and conversation id 0; a negotiation error of the
`InvalidData` kind rolls back and returns `Next`; every other error is
propagated as fatal. -/
theorem c7_socks_stage (ext : Ext) (s : PStream) :
    (∀ addr n, ext.auth s.input = AuthRes.tcp addr n →
      sstage1 ext true true s =
        (Except.ok (State.Accept (Action.Forward 0 (translateAddr addr))),
          ⟨s.input.drop n, [], s.output⟩, [])) ∧
    (∀ msg, ext.auth s.input = AuthRes.err true msg →
      sstage1 ext true true s = (Except.ok State.Next, ⟨s.input, [], s.output⟩, [])) ∧
    (∀ msg, ext.auth s.input = AuthRes.err false msg →
      (sstage1 ext true true s).1 = Except.error (CErr.failure msg)) := by
  refine ⟨fun addr n h => ?_, fun msg h => ?_, fun msg h => ?_⟩ <;>
    simp [sstage1, sbegin, sread, sback, srelease, h]

/-- Witness for C7: a SOCKS5 CONNECT to `93.184.216.34:80`, an
`InvalidData` negotiation failure, and an I/O negotiation failure. -/
theorem c7_socks_stage_witness :
    sstage1 extC7a true true sC5 =
      (Except.ok (State.Accept (Action.Forward 0 (translateAddr socksC7))),
        ⟨sC5.input.drop 3, [], sC5.output⟩, []) ∧
    sstage1 extBase true true sC5 =
      (Except.ok State.Next, ⟨sC5.input, [], sC5.output⟩, []) ∧
    (sstage1 extC7c true true sC5).1 = Except.error (CErr.failure "io error") :=
  ⟨(c7_socks_stage extC7a sC5).1 socksC7 3 (by decide),
   (c7_socks_stage extBase sC5).2.1 "no socks" (by decide),
   (c7_socks_stage extC7c sC5).2.2 "io error" (by decide)⟩

/-- Claim C1 — For every input byte stream that is neither the WebSocket
probe, a valid Action message, nor valid SOCKS5 (the decode and the
negotiation both fail as invalid data), the full pipeline (Classifier
then Strategy) terminates with
`Accept(Forward(0, Socket(0.0.0.0:0)))` from the default fallback stage,
and not with an error. -/
theorem c1_fallback_safety (ext : Ext) (s : PStream) (n : Nat) (m1 m2 : String)
    (hws : wsMatch (s.input.take 1024) = false)
    (hdec : ext.decode s.input = DecodeRes.bad n m1)
    (hauth : ext.auth s.input = AuthRes.err true m2) :
    runFull ext s =
      FullRes.act (Action.Forward 0 (Addr.Socket ⟨[0, 0, 0, 0], 0⟩))
        ⟨s.input, [], s.output⟩ := by
  simp [runFull, chainHandler, chainStrategy, runChain, liftStrategy, hstage1, hstage2,
    sstage1, sstage2, sbegin, sread, sback, swrite, hws, hdec, hauth,
    List.take_append_drop]

/-- Witness for C1: three bytes recognized by nothing. -/
theorem c1_fallback_safety_witness :
    wsMatch (sW4b.input.take 1024) = false ∧
    extBase.decode sW4b.input = DecodeRes.bad 0 "no action" ∧
    extBase.auth sW4b.input = AuthRes.err true "no socks" ∧
    runFull extBase sW4b =
      FullRes.act (Action.Forward 0 (Addr.Socket ⟨[0, 0, 0, 0], 0⟩))
        ⟨sW4b.input, [], sW4b.output⟩ :=
  ⟨by decide, by decide, by decide,
   c1_fallback_safety extBase sW4b 0 "no action" "no socks"
     (by decide) (by decide) (by decide)⟩

/-- Claim C3, counterexample — The claim "for any byte sequence the chain
reaches exactly one terminal outcome, Accept or Release" is false: on the
two-byte input `[5, 6]` decoding to `Connect(7, example.com:443)` with
`route` failing, the pipeline terminates with a fatal chain error, which
is neither an Accept nor a Release outcome. -/
theorem c3_totality_counterexample :
    isAcceptOrRelease (runFull extC3 sC3) = false ∧
    runFull extC3 sC3 = FullRes.err "no such conversation" ⟨[6], [], []⟩ := by
  constructor
  · decide
  · rfl

/-- Claim C3, amended — For any byte sequence presented to the full pipeline
(Classifier then Strategy), the chain reaches exactly one terminal
outcome — Accept, Release, or a fatal chain error: it never loops (the
runner is structurally recursive) and never runs past the last stage
without a result, because the final Strategy stage unconditionally
returns `Accept(Forward(0, Socket(0.0.0.0:0)))` and cannot itself
fail. -/
theorem c3_totality_amended (ext : Ext) (s : PStream) :
    isOffEnd (runFull ext s) = false ∧
    sstage2 s =
      (Except.ok (State.Accept (Action.Forward 0 (Addr.Socket ⟨[0, 0, 0, 0], 0⟩))),
        s, []) := by
  have hlift : ∀ r : ChainRes Action, isOffEnd (liftStrategy r) = isOffEndC r := by
    intro r
    cases r <;> rfl
  have hstr : ∀ t : PStream, isOffEndC (runChain (chainStrategy ext) t) = false := by
    intro t
    rcases h : sstage1 ext true true t with ⟨o, t1, tr⟩
    rcases o with e | st
    · cases e <;> simp [chainStrategy, runChain, h, sstage2, isOffEndC]
    · cases st <;> simp [chainStrategy, runChain, h, sstage2, isOffEndC]
  constructor
  · have hplain : ∀ t : PStream, isOffEnd (FullRes.handled t) = false ∧
        isOffEnd (FullRes.released t) = false ∧
        ∀ m, isOffEnd (FullRes.err m t) = false := by
      intro t
      exact ⟨rfl, rfl, fun m => rfl⟩
    cases h : runChain (chainHandler ext) s <;>
      simp [runFull, h, hlift, hstr, hplain]
  · rfl

/-- The `input` of a stream is untouched by `begin`, whether it succeeds
or not. -/
theorem sbegin_input (ok : Bool) (s : PStream) : (sbegin ok s).input = s.input := by
  cases ok <;> rfl

/-- Claim C10 — Every `begin()` and `back()` checkpoint call in every stage
has its result discarded (`let _ =`), so a failing checkpoint operation
never by itself changes a stage's outcome or terminates the connection:
each stage's outcome (its returned `State` or error) is the same whatever
the checkpoint calls' results; only the reads, writes, decodes, `spawn`,
`route`, `udp_forward` and SOCKS5 negotiation — the oracle inputs the
outcome is computed from — can produce a chain error. -/
theorem c10_checkpoint_result_discarded (ext : Ext) (s : PStream) (a b c d : Bool) :
    (hstage1 a b s).1 = (hstage1 c d s).1 ∧
    (hstage2 ext a b s).1 = (hstage2 ext c d s).1 ∧
    (sstage1 ext a b s).1 = (sstage1 ext c d s).1 := by
  refine ⟨?_, ?_, ?_⟩
  · simp only [hstage1]
    split <;> split <;> rfl
  · rcases hd : ext.decode s.input with ⟨ac, n⟩ | ⟨n, msg⟩
    · cases ac with
      | TcpBind name addr =>
        rcases hs : ext.spawn addr name with e | cv
        · rcases hsend : ext.send (Action.Err e) with se | bs <;>
            simp [hstage2, hd, hs, hsend]
        · simp [hstage2, hd, hs]
      | UdpBind conv =>
        rcases hr : ext.route conv (Action.UdpBind conv) with e | u <;>
          simp [hstage2, hd, hr]
      | Connect conv addr =>
        rcases hr : ext.route conv (Action.Connect conv addr) with e | u <;>
          simp [hstage2, hd, hr]
      | Forward conv addr => simp [hstage2, hd]
      | Err msg => simp [hstage2, hd]
    · simp [hstage2, hd]
  · rcases ha : ext.auth s.input with _ | ⟨addr, n⟩ | ⟨inv, msg⟩
    · cases hu : ext.udpFwd <;> simp [sstage1, sbegin_input, ha, hu]
    · simp [sstage1, sbegin_input, ha]
    · cases inv <;> simp [sstage1, sbegin_input, ha]

end FusoServer
